import Mathlib

/-!
Shallow embedding of `aiflearn/algorithms/transformer.py`.

The module defines:
  * `addmetadata` — a decorator that, when a wrapped method returns a
    `Dataset`, shallow-copies the returned dataset's `metadata` dict and
    stamps the keys `transformer`, `params`, `previous` into the copy;
  * an abstract base class `Transformer` (built on
    `BaseClass = ApplyDecorator(addmetadata)`, whose metaclass wraps every
    plain method of the class body with `addmetadata`), with default
    methods `fit`, `predict`, `transform`, `fit_predict`, `fit_transform`.

Python objects live on a heap and `metadata['params']`, the rebinding of
`new_dataset.metadata`, and the "original mapping is not mutated" claims
are all about object identity, so the embedding uses an explicit heap:
dict objects and Dataset objects are addressed by natural numbers.
-/

/-- Exceptions a method call can raise.  `transformer.py` raises
`NotImplementedError` from the default `predict`/`transform`; any other
Python exception is represented opaquely. -/
inductive PyExn where
  | notImplementedError (msg : String)
  | other (code : Nat)
deriving DecidableEq, Repr

/-- Transformer instances.  Per `Transformer.__init__`, an instance stores
its constructor keyword arguments in `self._params`; since `kwargs` is a
dict object, `_params` holds a heap address (a reference).  `className`
is `type(self).__name__`. -/
structure Transformer where
  className : String
  _params : Nat
deriving DecidableEq, Repr

/-- Python values relevant to this module: Dataset instances (by heap
reference), strings, dict objects (by heap reference), lists, transformer
instances, and opaque non-Dataset values. -/
inductive PyVal where
  | ds (ref : Nat)
  | str (s : String)
  | dictRef (ref : Nat)
  | list (l : List PyVal)
  | transformer (t : Transformer)
  | obj (n : Nat)

/-- Embedding of `isinstance(a, Dataset)`. -/
def PyVal.isDataset : PyVal → Bool
  | PyVal.ds _ => true
  | _ => false

/-- A Python dict with string keys, as an insertion-ordered association
list (each key occurs at most once when built by `Dict.set`). -/
abbrev Dict := List (String × PyVal)

/-- Embedding of `d[k] = v` on a Python dict: replace the value of an
existing key in place, else append the new pair. -/
def Dict.set : Dict → String → PyVal → Dict
  | [], k, v => [(k, v)]
  | (k', v') :: rest, k, v =>
      if k = k' then (k, v) :: rest else (k', v') :: Dict.set rest k v

/-- Embedding of `d[k]` / `d.get(k)` on a Python dict. -/
def Dict.get : Dict → String → Option PyVal
  | [], _ => none
  | (k', v) :: rest, k => if k = k' then some v else Dict.get rest k

/-- Embedding of `d.update(kvs)`: set each pair of `kvs` in order. -/
def Dict.update (d : Dict) (kvs : List (String × PyVal)) : Dict :=
  kvs.foldl (fun acc kv => Dict.set acc kv.1 kv.2) d

/-- Embedding of `d.copy()`: a shallow copy has the same entries; the
fresh object identity is produced by the heap allocation that uses it. -/
def Dict.copy (d : Dict) : Dict := d

/-- The heap.  `dictContents a` is the contents of the dict object at
address `a`; `dsMeta r` is the address of the dict currently bound to the
`metadata` attribute of the Dataset at address `r`; `nextAddr` is the next
fresh address (every live object sits below it). -/
structure Heap where
  dictContents : Nat → Dict
  dsMeta : Nat → Nat
  nextAddr : Nat

/-- Result of a Python call: a value or a raised exception, together with
the heap after the call. -/
abbrev CallResult := Except PyExn PyVal × Heap

/-- An instance-method implementation: `self`, positional `args`, keyword
`kwargs`, and the current heap, to a `CallResult`. -/
abbrev Impl := Transformer → List PyVal → Dict → Heap → CallResult

/-- A Python function object: its `__name__` and its body. -/
structure PyFunc where
  name : String
  impl : Impl

/-- Embedding of the `addmetadata` decorator.  `functools.wraps(func)`
copies `func.__name__` onto the wrapper, so the wrapped function keeps the
name.  The wrapper calls `func`; if the result is a `Dataset` it rebinds
`new_dataset.metadata` to a shallow copy of itself (a fresh dict object)
and updates that copy with the keys `transformer`, `params` (the reference
`self._params`) and `previous` (the positional args that are Datasets, in
order); otherwise the result passes through untouched.  An exception
raised by `func` propagates unchanged. -/
def addmetadata (func : PyFunc) : PyFunc where
  name := func.name
  impl := fun self args kwargs h =>
    match func.impl self args kwargs h with
    | (Except.error e, h1) => (Except.error e, h1)
    | (Except.ok new_dataset, h1) =>
      match new_dataset with
      | PyVal.ds r =>
          let copyAddr := h1.nextAddr
          let h2 : Heap :=
            { h1 with
              dictContents := Function.update h1.dictContents copyAddr
                (Dict.copy (h1.dictContents (h1.dsMeta r)))
              nextAddr := h1.nextAddr + 1 }
          let h3 : Heap := { h2 with dsMeta := Function.update h2.dsMeta r copyAddr }
          let updated := Dict.update (h3.dictContents (h3.dsMeta r))
            [("transformer", PyVal.str (self.className ++ "." ++ func.name)),
             ("params", PyVal.dictRef self._params),
             ("previous", PyVal.list (args.filter PyVal.isDataset))]
          let h4 : Heap :=
            { h3 with dictContents := Function.update h3.dictContents (h3.dsMeta r) updated }
          (Except.ok new_dataset, h4)
      | _ => (Except.ok new_dataset, h1)

/-- Modelled from the spec: `BaseClass = ApplyDecorator(addmetadata)` uses
`aiflearn.decorating_metaclass.ApplyDecorator` (not under `src/`), whose
metaclass applies the decorator to every plain method found in a class
body — of the base contract and of every subclass — before the class is
finalized.  A bound lifecycle method is therefore the `addmetadata`-wrapped
version of the function defined in the class body. -/
def boundMethod (f : PyFunc) : PyFunc := addmetadata f

/-- Embedding of `Transformer.__init__`: `self._params = kwargs`.  The
caller-supplied `kwargs` dict is a fresh object, so construction allocates
a dict holding the keyword arguments and stores its address in `_params`. -/
def Transformer.init (className : String) (kwargs : Dict) (h : Heap) :
    Transformer × Heap :=
  ({ className := className, _params := h.nextAddr },
   { h with
     dictContents := Function.update h.dictContents h.nextAddr kwargs
     nextAddr := h.nextAddr + 1 })

/-- Embedding of the default `Transformer.fit`: `return self`. -/
def Transformer.fit : PyFunc where
  name := "fit"
  impl := fun self _args _kwargs h => (Except.ok (PyVal.transformer self), h)

/-- Embedding of the default `Transformer.predict`: unconditionally
`raise NotImplementedError(...)`. -/
def Transformer.predict : PyFunc where
  name := "predict"
  impl := fun _self _args _kwargs h =>
    (Except.error (PyExn.notImplementedError
      ("'predict' is not supported for this class. " ++
       "Perhaps you meant 'transform' or 'fit_predict' instead?")), h)

/-- Embedding of the default `Transformer.transform`: unconditionally
`raise NotImplementedError(...)`. -/
def Transformer.transform : PyFunc where
  name := "transform"
  impl := fun _self _args _kwargs h =>
    (Except.error (PyExn.notImplementedError
      ("'transform' is not supported for this class." ++
       " Perhaps you meant 'predict' or 'fit_transform' instead?")), h)

/-- A concrete transformer class, given by the functions that resolve for
`fit`, `predict` and `transform` on its instances (the subclass override
where one exists, else the base default).  The embedding is monomorphic:
`self.fit(...)` on an instance of the class dispatches to the
`addmetadata`-wrapped `cls.fit`, per the auto-wrapping of §4.2. -/
structure TransformerClass where
  name : String
  fit : PyFunc
  predict : PyFunc
  transform : PyFunc

/-- Embedding of `Transformer.fit_predict`:
`return self.fit(dataset).predict(dataset)`.  Both bound methods reached
from `self` are the wrapped ones; calling `.predict` on a non-transformer
result is an attribute error, modelled opaquely. -/
def Transformer.fit_predict (cls : TransformerClass) : PyFunc where
  name := "fit_predict"
  impl := fun self args _kwargs h =>
    match args with
    | [dataset] =>
        match (addmetadata cls.fit).impl self [dataset] [] h with
        | (Except.error e, h1) => (Except.error e, h1)
        | (Except.ok (PyVal.transformer t), h1) =>
            (addmetadata cls.predict).impl t [dataset] [] h1
        | (Except.ok _, h1) => (Except.error (PyExn.other 0), h1)
    | _ => (Except.error (PyExn.other 1), h)

/-- Embedding of `Transformer.fit_transform`:
`return self.fit(dataset).transform(dataset)`. -/
def Transformer.fit_transform (cls : TransformerClass) : PyFunc where
  name := "fit_transform"
  impl := fun self args _kwargs h =>
    match args with
    | [dataset] =>
        match (addmetadata cls.fit).impl self [dataset] [] h with
        | (Except.error e, h1) => (Except.error e, h1)
        | (Except.ok (PyVal.transformer t), h1) =>
            (addmetadata cls.transform).impl t [dataset] [] h1
        | (Except.ok _, h1) => (Except.error (PyExn.other 0), h1)
    | _ => (Except.error (PyExn.other 1), h)

/-- The provenance record written by the wrapper into the (copied)
metadata dict: the three `Dict.update` assignments of `addmetadata`,
spelled out. -/
def stampDict (d : Dict) (self : Transformer) (funcName : String)
    (args : List PyVal) : Dict :=
  ((d.set "transformer" (PyVal.str (self.className ++ "." ++ funcName))).set
      "params" (PyVal.dictRef self._params)).set
      "previous" (PyVal.list (args.filter PyVal.isDataset))

theorem Dict.get_set_self (d : Dict) (k : String) (v : PyVal) :
    Dict.get (Dict.set d k v) k = some v := by
  induction d with
  | nil => simp [Dict.set, Dict.get]
  | cons p rest ih =>
      obtain ⟨k', v'⟩ := p
      by_cases hk : k = k'
      · simp [Dict.set, hk, Dict.get]
      · simp [Dict.set, hk, Dict.get, ih]

theorem Dict.get_set_ne (d : Dict) (k k' : String) (v : PyVal) (hne : k ≠ k') :
    Dict.get (Dict.set d k' v) k = Dict.get d k := by
  induction d with
  | nil => simp [Dict.set, Dict.get, hne]
  | cons p rest ih =>
      obtain ⟨k'', v''⟩ := p
      by_cases hk : k' = k''
      · subst hk
        simp [Dict.set, Dict.get, hne, ih]
      · by_cases hkk : k = k''
        · simp [Dict.set, Dict.get, hk, hkk]
        · simp [Dict.set, Dict.get, hk, hkk, ih]

theorem stampDict_get_transformer (d : Dict) (self : Transformer)
    (funcName : String) (args : List PyVal) :
    Dict.get (stampDict d self funcName args) "transformer" =
      some (PyVal.str (self.className ++ "." ++ funcName)) := by
  unfold stampDict
  rw [Dict.get_set_ne _ _ _ _ (by decide), Dict.get_set_ne _ _ _ _ (by decide),
    Dict.get_set_self]

theorem stampDict_get_params (d : Dict) (self : Transformer)
    (funcName : String) (args : List PyVal) :
    Dict.get (stampDict d self funcName args) "params" =
      some (PyVal.dictRef self._params) := by
  unfold stampDict
  rw [Dict.get_set_ne _ _ _ _ (by decide), Dict.get_set_self]

theorem stampDict_get_previous (d : Dict) (self : Transformer)
    (funcName : String) (args : List PyVal) :
    Dict.get (stampDict d self funcName args) "previous" =
      some (PyVal.list (args.filter PyVal.isDataset)) := by
  unfold stampDict
  rw [Dict.get_set_self]

/-- Master run lemma: when the wrapped function returns a Dataset `r` in
heap `h1`, the `addmetadata` wrapper returns the same Dataset, allocates
one fresh dict at `h1.nextAddr` holding the shallow copy of `r`'s
metadata updated with the provenance record, and rebinds `r.metadata` to
that fresh address. -/
theorem addmetadata_run_ds (f : PyFunc) (self : Transformer)
    (args : List PyVal) (kwargs : Dict) (h : Heap) (r : Nat) (h1 : Heap)
    (hrun : f.impl self args kwargs h = (Except.ok (PyVal.ds r), h1)) :
    (addmetadata f).impl self args kwargs h =
      (Except.ok (PyVal.ds r),
       { dictContents := Function.update h1.dictContents h1.nextAddr
           (stampDict (h1.dictContents (h1.dsMeta r)) self f.name args)
         dsMeta := Function.update h1.dsMeta r h1.nextAddr
         nextAddr := h1.nextAddr + 1 }) := by
  simp only [addmetadata, hrun]
  refine Prod.ext rfl ?_
  simp only [Function.update_same, Dict.update, Dict.copy, List.foldl,
    Function.update_idem, stampDict]
  rw [Function.update_same, Function.update_same]

/-- Run lemma for the pass-through branch: when the wrapped function does
not return a Dataset (a non-Dataset value or a raised exception), the
wrapper returns exactly the function's own result and heap. -/
theorem addmetadata_run_passthrough (f : PyFunc) (self : Transformer)
    (args : List PyVal) (kwargs : Dict) (h : Heap) (res : Except PyExn PyVal)
    (h1 : Heap) (hrun : f.impl self args kwargs h = (res, h1))
    (hnotds : ∀ r : Nat, res ≠ Except.ok (PyVal.ds r)) :
    (addmetadata f).impl self args kwargs h = (res, h1) := by
  simp only [addmetadata, hrun]
  match res with
  | Except.error e => rfl
  | Except.ok (PyVal.ds r) => exact absurd rfl (hnotds r)
  | Except.ok (PyVal.str s) => rfl
  | Except.ok (PyVal.dictRef a) => rfl
  | Except.ok (PyVal.list l) => rfl
  | Except.ok (PyVal.transformer t) => rfl
  | Except.ok (PyVal.obj n) => rfl

/-- Concrete subclass method used in witnesses: a `transform` override
whose body is `return dataset` (it returns its Dataset argument). -/
def identityTransformF : PyFunc where
  name := "transform"
  impl := fun _self args _kwargs h =>
    match args with
    | [PyVal.ds r] => (Except.ok (PyVal.ds r), h)
    | _ => (Except.error (PyExn.other 2), h)

/-- Concrete subclass method used in witnesses: a `transform` override
taking a Dataset and one extra positional argument, returning the
Dataset. -/
def twoArgTransformF : PyFunc where
  name := "transform"
  impl := fun _self args _kwargs h =>
    match args with
    | [PyVal.ds r, _] => (Except.ok (PyVal.ds r), h)
    | _ => (Except.error (PyExn.other 2), h)

/-- Concrete heap used in witnesses: a params dict at address 0, a
Dataset at address 1 whose metadata dict is at address 2. -/
def heap0 : Heap where
  dictContents := Function.update (fun _ => []) 0 [("k", PyVal.str "v")]
  dsMeta := fun _ => 2
  nextAddr := 3

/-- Helper for reading the freshly stamped dict back out of the heap
produced by `addmetadata_run_ds`: the rebound metadata address of `r` is
the fresh address, whose contents are the stamped dict. -/
theorem fresh_stamped_read (c : Nat → Dict) (m : Nat → Nat) (fresh r : Nat)
    (d : Dict) :
    Function.update c fresh d (Function.update m r fresh r) = d := by
  rw [Function.update_same, Function.update_same]

/-- C1: a provenance-wrapped method whose call returns a Dataset leaves
`metadata['transformer']` equal to the string
`"<ClassName>.<MethodName>"`, with `ClassName` the runtime class name of
the receiver (`type(self).__name__`) and `MethodName` the `__name__` of
the originally defined, unwrapped method. -/
theorem addmetadata_stamps_transformer_key (f : PyFunc) (self : Transformer)
    (args : List PyVal) (kwargs : Dict) (h : Heap) (r : Nat) (h1 : Heap)
    (hrun : f.impl self args kwargs h = (Except.ok (PyVal.ds r), h1)) :
    ((addmetadata f).impl self args kwargs h).1 = Except.ok (PyVal.ds r) ∧
    Dict.get
      ((((addmetadata f).impl self args kwargs h).2).dictContents
        ((((addmetadata f).impl self args kwargs h).2).dsMeta r)) "transformer" =
      some (PyVal.str (self.className ++ "." ++ f.name)) := by
  rw [addmetadata_run_ds f self args kwargs h r h1 hrun]
  refine ⟨rfl, ?_⟩
  dsimp only
  rw [fresh_stamped_read, stampDict_get_transformer]

theorem addmetadata_stamps_transformer_key_witness :
    identityTransformF.impl (Transformer.mk "T" 0) [PyVal.ds 1] [] heap0 =
      (Except.ok (PyVal.ds 1), heap0) ∧
    (((addmetadata identityTransformF).impl (Transformer.mk "T" 0) [PyVal.ds 1] [] heap0).1 =
        Except.ok (PyVal.ds 1) ∧
     Dict.get
       ((((addmetadata identityTransformF).impl (Transformer.mk "T" 0) [PyVal.ds 1] [] heap0).2).dictContents
         ((((addmetadata identityTransformF).impl (Transformer.mk "T" 0) [PyVal.ds 1] [] heap0).2).dsMeta 1))
       "transformer" =
       some (PyVal.str ((Transformer.mk "T" 0).className ++ "." ++ identityTransformF.name))) :=
  ⟨rfl, addmetadata_stamps_transformer_key identityTransformF (Transformer.mk "T" 0)
    [PyVal.ds 1] [] heap0 1 heap0 rfl⟩

/-- C2: a provenance-wrapped method whose call returns a Dataset leaves
`metadata['previous']` equal to the list of exactly those positional
arguments that are Dataset instances, in call order (a sublist of `args`
all of whose elements are Datasets); keyword arguments never enter it. -/
theorem addmetadata_stamps_previous_key (f : PyFunc) (self : Transformer)
    (args : List PyVal) (kwargs : Dict) (h : Heap) (r : Nat) (h1 : Heap)
    (hrun : f.impl self args kwargs h = (Except.ok (PyVal.ds r), h1)) :
    Dict.get
      ((((addmetadata f).impl self args kwargs h).2).dictContents
        ((((addmetadata f).impl self args kwargs h).2).dsMeta r)) "previous" =
      some (PyVal.list (args.filter PyVal.isDataset)) ∧
    List.Sublist (args.filter PyVal.isDataset) args ∧
    ∀ a, a ∈ args.filter PyVal.isDataset → a.isDataset = true := by
  rw [addmetadata_run_ds f self args kwargs h r h1 hrun]
  refine ⟨?_, List.filter_sublist args, ?_⟩
  · dsimp only
    rw [fresh_stamped_read, stampDict_get_previous]
  · intro a ha
    exact (List.mem_filter.mp ha).2

theorem addmetadata_stamps_previous_key_witness :
    twoArgTransformF.impl (Transformer.mk "T" 0) [PyVal.ds 1, PyVal.obj 5] [] heap0 =
      (Except.ok (PyVal.ds 1), heap0) ∧
    (Dict.get
       ((((addmetadata twoArgTransformF).impl (Transformer.mk "T" 0)
            [PyVal.ds 1, PyVal.obj 5] [] heap0).2).dictContents
         ((((addmetadata twoArgTransformF).impl (Transformer.mk "T" 0)
              [PyVal.ds 1, PyVal.obj 5] [] heap0).2).dsMeta 1)) "previous" =
       some (PyVal.list ([PyVal.ds 1, PyVal.obj 5].filter PyVal.isDataset)) ∧
     List.Sublist ([PyVal.ds 1, PyVal.obj 5].filter PyVal.isDataset)
       [PyVal.ds 1, PyVal.obj 5] ∧
     ∀ a, a ∈ [PyVal.ds 1, PyVal.obj 5].filter PyVal.isDataset →
       a.isDataset = true) :=
  ⟨rfl, addmetadata_stamps_previous_key twoArgTransformF (Transformer.mk "T" 0)
    [PyVal.ds 1, PyVal.obj 5] [] heap0 1 heap0 rfl⟩

/-- C4: on a provenance-wrapped call returning a Dataset made by an
instance constructed with keyword arguments `kwargs`,
`metadata['params']` holds the very reference `self._params` (the same
heap address, not a copy), and — provided the method body left the params
dict alone and only allocated fresh addresses — the dict at that address
still equals the construction-time keyword arguments. -/
theorem addmetadata_params_by_reference (f : PyFunc) (className : String)
    (kwargs : Dict) (h : Heap) (args : List PyVal) (kw : Dict) (r : Nat)
    (h1 : Heap)
    (hrun : f.impl (Transformer.init className kwargs h).1 args kw
      (Transformer.init className kwargs h).2 = (Except.ok (PyVal.ds r), h1))
    (hframe : h1.dictContents (Transformer.init className kwargs h).1._params =
      kwargs)
    (hfresh : h.nextAddr < h1.nextAddr) :
    ((addmetadata f).impl (Transformer.init className kwargs h).1 args kw
        (Transformer.init className kwargs h).2).1 = Except.ok (PyVal.ds r) ∧
    Dict.get
      ((((addmetadata f).impl (Transformer.init className kwargs h).1 args kw
           (Transformer.init className kwargs h).2).2).dictContents
        ((((addmetadata f).impl (Transformer.init className kwargs h).1 args kw
             (Transformer.init className kwargs h).2).2).dsMeta r)) "params" =
      some (PyVal.dictRef (Transformer.init className kwargs h).1._params) ∧
    (((addmetadata f).impl (Transformer.init className kwargs h).1 args kw
        (Transformer.init className kwargs h).2).2).dictContents
      (Transformer.init className kwargs h).1._params = kwargs := by
  rw [addmetadata_run_ds _ _ _ _ _ r h1 hrun]
  refine ⟨rfl, ?_, ?_⟩
  · dsimp only
    rw [fresh_stamped_read, stampDict_get_params]
  · dsimp only [Transformer.init]
    rw [Function.update_noteq (Nat.ne_of_lt hfresh)]
    exact hframe

theorem addmetadata_params_by_reference_witness :
    identityTransformF.impl
        (Transformer.init "T" [("alpha", PyVal.obj 7)] heap0).1 [PyVal.ds 1] []
        (Transformer.init "T" [("alpha", PyVal.obj 7)] heap0).2 =
      (Except.ok (PyVal.ds 1),
        (Transformer.init "T" [("alpha", PyVal.obj 7)] heap0).2) ∧
    (Transformer.init "T" [("alpha", PyVal.obj 7)] heap0).2.dictContents
      (Transformer.init "T" [("alpha", PyVal.obj 7)] heap0).1._params =
      [("alpha", PyVal.obj 7)] ∧
    heap0.nextAddr < (Transformer.init "T" [("alpha", PyVal.obj 7)] heap0).2.nextAddr ∧
    (((addmetadata identityTransformF).impl
        (Transformer.init "T" [("alpha", PyVal.obj 7)] heap0).1 [PyVal.ds 1] []
        (Transformer.init "T" [("alpha", PyVal.obj 7)] heap0).2).1 =
        Except.ok (PyVal.ds 1) ∧
     Dict.get
       ((((addmetadata identityTransformF).impl
            (Transformer.init "T" [("alpha", PyVal.obj 7)] heap0).1 [PyVal.ds 1] []
            (Transformer.init "T" [("alpha", PyVal.obj 7)] heap0).2).2).dictContents
         ((((addmetadata identityTransformF).impl
              (Transformer.init "T" [("alpha", PyVal.obj 7)] heap0).1 [PyVal.ds 1] []
              (Transformer.init "T" [("alpha", PyVal.obj 7)] heap0).2).2).dsMeta 1))
       "params" =
       some (PyVal.dictRef
         (Transformer.init "T" [("alpha", PyVal.obj 7)] heap0).1._params) ∧
     (((addmetadata identityTransformF).impl
         (Transformer.init "T" [("alpha", PyVal.obj 7)] heap0).1 [PyVal.ds 1] []
         (Transformer.init "T" [("alpha", PyVal.obj 7)] heap0).2).2).dictContents
       (Transformer.init "T" [("alpha", PyVal.obj 7)] heap0).1._params =
       [("alpha", PyVal.obj 7)]) :=
  ⟨rfl, rfl, by decide,
   addmetadata_params_by_reference identityTransformF "T" [("alpha", PyVal.obj 7)]
     heap0 [PyVal.ds 1] [] 1
     (Transformer.init "T" [("alpha", PyVal.obj 7)] heap0).2 rfl rfl (by decide)⟩

/-- C7: when the wrapped method's result is not a Dataset instance — a
non-Dataset return value or a raised exception — the wrapper returns that
very result with the heap exactly as the method left it: no provenance
keys are injected anywhere, nothing is touched, and no new exception is
raised. -/
theorem addmetadata_non_dataset_passthrough (f : PyFunc) (self : Transformer)
    (args : List PyVal) (kwargs : Dict) (h : Heap) (res : Except PyExn PyVal)
    (h1 : Heap) (hrun : f.impl self args kwargs h = (res, h1))
    (hnotds : ∀ r : Nat, res ≠ Except.ok (PyVal.ds r)) :
    (addmetadata f).impl self args kwargs h = (res, h1) :=
  addmetadata_run_passthrough f self args kwargs h res h1 hrun hnotds

theorem addmetadata_non_dataset_passthrough_witness :
    Transformer.fit.impl (Transformer.mk "T" 0) [PyVal.ds 1] [] heap0 =
      (Except.ok (PyVal.transformer (Transformer.mk "T" 0)), heap0) ∧
    (∀ r : Nat,
      (Except.ok (PyVal.transformer (Transformer.mk "T" 0)) :
          Except PyExn PyVal) ≠ Except.ok (PyVal.ds r)) ∧
    (addmetadata Transformer.fit).impl (Transformer.mk "T" 0) [PyVal.ds 1] [] heap0 =
      (Except.ok (PyVal.transformer (Transformer.mk "T" 0)), heap0) :=
  ⟨rfl, fun _ hc => by simp at hc,
   addmetadata_non_dataset_passthrough Transformer.fit (Transformer.mk "T" 0)
     [PyVal.ds 1] [] heap0 _ heap0 rfl (fun _ hc => by simp at hc)⟩

/-- C8: on a subclass that does not override `fit`, the bound `fit` is
the wrapped base default (`return self`); calling it on any arguments
returns exactly the receiving instance and leaves the heap — hence every
field of every dataset and the params dict — untouched. -/
theorem default_fit_returns_self_unchanged (self : Transformer)
    (args : List PyVal) (kwargs : Dict) (h : Heap) :
    (boundMethod Transformer.fit).impl self args kwargs h =
      (Except.ok (PyVal.transformer self), h) := rfl

/-- C6: on a subclass that does not override them, the bound `predict`
and `transform` are the wrapped base defaults, which raise
`NotImplementedError` unconditionally — for every receiver, argument
list, keyword dict and heap, leaving the heap untouched — with the exact
messages that name the unsupported operation and suggest the alternative
methods (`transform`/`fit_predict` for `predict`, and
`predict`/`fit_transform` for `transform`). -/
theorem default_predict_transform_raise_unsupported (self : Transformer)
    (args : List PyVal) (kwargs : Dict) (h : Heap) :
    (boundMethod Transformer.predict).impl self args kwargs h =
      (Except.error (PyExn.notImplementedError
        "'predict' is not supported for this class. Perhaps you meant 'transform' or 'fit_predict' instead?"), h) ∧
    (boundMethod Transformer.transform).impl self args kwargs h =
      (Except.error (PyExn.notImplementedError
        "'transform' is not supported for this class. Perhaps you meant 'predict' or 'fit_transform' instead?"), h) :=
  ⟨rfl, rfl⟩

/-- Frame helper: whatever the wrapped function returned, the wrapper's
own writes touch only the freshly allocated address `h1.nextAddr`, so the
contents of any other dict address are exactly as the wrapped function
left them. -/
theorem addmetadata_dictContents_frame (f : PyFunc) (self : Transformer)
    (args : List PyVal) (kwargs : Dict) (h : Heap) (res : Except PyExn PyVal)
    (h1 : Heap) (hres : f.impl self args kwargs h = (res, h1)) (a : Nat)
    (hne : a ≠ h1.nextAddr) :
    ((addmetadata f).impl self args kwargs h).2.dictContents a =
      h1.dictContents a := by
  match res with
  | Except.error e =>
      rw [addmetadata_run_passthrough f self args kwargs h _ h1 hres
        (fun r hc => by simp at hc)]
  | Except.ok (PyVal.ds r) =>
      rw [addmetadata_run_ds f self args kwargs h r h1 hres]
      exact Function.update_noteq hne _ _
  | Except.ok (PyVal.str s) =>
      rw [addmetadata_run_passthrough f self args kwargs h _ h1 hres
        (fun r hc => by simp at hc)]
  | Except.ok (PyVal.dictRef d) =>
      rw [addmetadata_run_passthrough f self args kwargs h _ h1 hres
        (fun r hc => by simp at hc)]
  | Except.ok (PyVal.list l) =>
      rw [addmetadata_run_passthrough f self args kwargs h _ h1 hres
        (fun r hc => by simp at hc)]
  | Except.ok (PyVal.transformer t) =>
      rw [addmetadata_run_passthrough f self args kwargs h _ h1 hres
        (fun r hc => by simp at hc)]
  | Except.ok (PyVal.obj n) =>
      rw [addmetadata_run_passthrough f self args kwargs h _ h1 hres
        (fun r hc => by simp at hc)]

/-- C5: a provenance-wrapped call never mutates in place a dict object
that existed before the call.  If the method body itself left the dict at
a pre-call address `a` unchanged (and, like all code in this module, only
allocated at fresh addresses), then after the whole wrapped call that
dict's entries are exactly what they were before: the wrapper
shallow-copies the result's metadata into a fresh address and updates
only the copy, so in particular the input dataset's original metadata
mapping is never mutated in place. -/
theorem addmetadata_preserves_input_metadata_object (f : PyFunc)
    (self : Transformer) (args : List PyVal) (kwargs : Dict) (h : Heap)
    (a : Nat) (ha : a < h.nextAddr)
    (hfunc : (f.impl self args kwargs h).2.dictContents a = h.dictContents a)
    (hmono : h.nextAddr ≤ (f.impl self args kwargs h).2.nextAddr) :
    ((addmetadata f).impl self args kwargs h).2.dictContents a =
      h.dictContents a := by
  rcases hres : f.impl self args kwargs h with ⟨res, h1⟩
  rw [hres] at hfunc hmono
  rw [addmetadata_dictContents_frame f self args kwargs h res h1 hres a
    (Nat.ne_of_lt (lt_of_lt_of_le ha hmono))]
  exact hfunc

theorem addmetadata_preserves_input_metadata_object_witness :
    (2 : Nat) < heap0.nextAddr ∧
    (identityTransformF.impl (Transformer.mk "T" 0) [PyVal.ds 1] [] heap0).2.dictContents 2 =
      heap0.dictContents 2 ∧
    heap0.nextAddr ≤
      (identityTransformF.impl (Transformer.mk "T" 0) [PyVal.ds 1] [] heap0).2.nextAddr ∧
    ((addmetadata identityTransformF).impl (Transformer.mk "T" 0) [PyVal.ds 1] [] heap0).2.dictContents 2 =
      heap0.dictContents 2 :=
  ⟨by decide, rfl, by decide,
   addmetadata_preserves_input_metadata_object identityTransformF
     (Transformer.mk "T" 0) [PyVal.ds 1] [] heap0 2 (by decide) rfl (by decide)⟩

/-- C9: `functools.wraps` makes the wrapper carry the wrapped callable's
`__name__`, so wrapping is observationally idempotent with respect to the
stamped `transformer` value: wrapping an already-wrapped method again
still stamps `"<ClassName>.<original name>"` — never a wrapper's own
name — exactly as the single wrap does. -/
theorem addmetadata_name_preserved_idempotent_stamp (f : PyFunc)
    (self : Transformer) (args : List PyVal) (kwargs : Dict) (h : Heap)
    (r : Nat) (h1 : Heap)
    (hrun : f.impl self args kwargs h = (Except.ok (PyVal.ds r), h1)) :
    (addmetadata f).name = f.name ∧
    (addmetadata (addmetadata f)).name = f.name ∧
    Dict.get
      ((((addmetadata (addmetadata f)).impl self args kwargs h).2).dictContents
        ((((addmetadata (addmetadata f)).impl self args kwargs h).2).dsMeta r))
      "transformer" = some (PyVal.str (self.className ++ "." ++ f.name)) ∧
    Dict.get
      ((((addmetadata f).impl self args kwargs h).2).dictContents
        ((((addmetadata f).impl self args kwargs h).2).dsMeta r))
      "transformer" = some (PyVal.str (self.className ++ "." ++ f.name)) := by
  refine ⟨rfl, rfl, ?_, ?_⟩
  · rw [addmetadata_run_ds (addmetadata f) self args kwargs h r _
      (addmetadata_run_ds f self args kwargs h r h1 hrun)]
    dsimp only
    rw [fresh_stamped_read, stampDict_get_transformer]
    rfl
  · rw [addmetadata_run_ds f self args kwargs h r h1 hrun]
    dsimp only
    rw [fresh_stamped_read, stampDict_get_transformer]

theorem addmetadata_name_preserved_idempotent_stamp_witness :
    identityTransformF.impl (Transformer.mk "T" 0) [PyVal.ds 1] [] heap0 =
      (Except.ok (PyVal.ds 1), heap0) ∧
    ((addmetadata identityTransformF).name = identityTransformF.name ∧
     (addmetadata (addmetadata identityTransformF)).name = identityTransformF.name ∧
     Dict.get
       ((((addmetadata (addmetadata identityTransformF)).impl (Transformer.mk "T" 0)
            [PyVal.ds 1] [] heap0).2).dictContents
         ((((addmetadata (addmetadata identityTransformF)).impl (Transformer.mk "T" 0)
              [PyVal.ds 1] [] heap0).2).dsMeta 1))
       "transformer" =
       some (PyVal.str ((Transformer.mk "T" 0).className ++ "." ++ identityTransformF.name)) ∧
     Dict.get
       ((((addmetadata identityTransformF).impl (Transformer.mk "T" 0)
            [PyVal.ds 1] [] heap0).2).dictContents
         ((((addmetadata identityTransformF).impl (Transformer.mk "T" 0)
              [PyVal.ds 1] [] heap0).2).dsMeta 1))
       "transformer" =
       some (PyVal.str ((Transformer.mk "T" 0).className ++ "." ++ identityTransformF.name))) :=
  ⟨rfl, addmetadata_name_preserved_idempotent_stamp identityTransformF
    (Transformer.mk "T" 0) [PyVal.ds 1] [] heap0 1 heap0 rfl⟩

/-- C10: when the wrapped method returns the very Dataset object it was
given as a positional argument, the call rebinds that object's `metadata`
attribute to a fresh dict (a different address from the old one) carrying
the new provenance record; `previous` holds the argument datasets by
reference, including the returned dataset itself; the old mapping object
is left with exactly the entries the method body left in it. -/
theorem addmetadata_same_object_return (f : PyFunc) (self : Transformer)
    (args : List PyVal) (kwargs : Dict) (h : Heap) (r : Nat) (h1 : Heap)
    (hrun : f.impl self args kwargs h = (Except.ok (PyVal.ds r), h1))
    (hmem : PyVal.ds r ∈ args)
    (hwf : h1.dsMeta r < h1.nextAddr) :
    ((addmetadata f).impl self args kwargs h).1 = Except.ok (PyVal.ds r) ∧
    (((addmetadata f).impl self args kwargs h).2).dsMeta r = h1.nextAddr ∧
    (((addmetadata f).impl self args kwargs h).2).dsMeta r ≠ h1.dsMeta r ∧
    (((addmetadata f).impl self args kwargs h).2).dictContents (h1.dsMeta r) =
      h1.dictContents (h1.dsMeta r) ∧
    Dict.get
      ((((addmetadata f).impl self args kwargs h).2).dictContents
        ((((addmetadata f).impl self args kwargs h).2).dsMeta r)) "transformer" =
      some (PyVal.str (self.className ++ "." ++ f.name)) ∧
    Dict.get
      ((((addmetadata f).impl self args kwargs h).2).dictContents
        ((((addmetadata f).impl self args kwargs h).2).dsMeta r)) "previous" =
      some (PyVal.list (args.filter PyVal.isDataset)) ∧
    PyVal.ds r ∈ args.filter PyVal.isDataset := by
  rw [addmetadata_run_ds f self args kwargs h r h1 hrun]
  dsimp only
  refine ⟨rfl, Function.update_same r h1.nextAddr h1.dsMeta, ?_, ?_, ?_, ?_, ?_⟩
  · rw [Function.update_same]
    exact Ne.symm (Nat.ne_of_lt hwf)
  · exact Function.update_noteq (Nat.ne_of_lt hwf) _ _
  · rw [fresh_stamped_read, stampDict_get_transformer]
  · rw [fresh_stamped_read, stampDict_get_previous]
  · exact List.mem_filter.mpr ⟨hmem, rfl⟩

theorem addmetadata_same_object_return_witness :
    identityTransformF.impl (Transformer.mk "T" 0) [PyVal.ds 1] [] heap0 =
      (Except.ok (PyVal.ds 1), heap0) ∧
    PyVal.ds 1 ∈ [PyVal.ds 1] ∧
    heap0.dsMeta 1 < heap0.nextAddr ∧
    (((addmetadata identityTransformF).impl (Transformer.mk "T" 0) [PyVal.ds 1] [] heap0).1 =
        Except.ok (PyVal.ds 1) ∧
     (((addmetadata identityTransformF).impl (Transformer.mk "T" 0) [PyVal.ds 1] [] heap0).2).dsMeta 1 =
        heap0.nextAddr ∧
     (((addmetadata identityTransformF).impl (Transformer.mk "T" 0) [PyVal.ds 1] [] heap0).2).dsMeta 1 ≠
        heap0.dsMeta 1 ∧
     (((addmetadata identityTransformF).impl (Transformer.mk "T" 0) [PyVal.ds 1] [] heap0).2).dictContents
        (heap0.dsMeta 1) = heap0.dictContents (heap0.dsMeta 1) ∧
     Dict.get
       ((((addmetadata identityTransformF).impl (Transformer.mk "T" 0) [PyVal.ds 1] [] heap0).2).dictContents
         ((((addmetadata identityTransformF).impl (Transformer.mk "T" 0) [PyVal.ds 1] [] heap0).2).dsMeta 1))
       "transformer" =
       some (PyVal.str ((Transformer.mk "T" 0).className ++ "." ++ identityTransformF.name)) ∧
     Dict.get
       ((((addmetadata identityTransformF).impl (Transformer.mk "T" 0) [PyVal.ds 1] [] heap0).2).dictContents
         ((((addmetadata identityTransformF).impl (Transformer.mk "T" 0) [PyVal.ds 1] [] heap0).2).dsMeta 1))
       "previous" =
       some (PyVal.list ([PyVal.ds 1].filter PyVal.isDataset)) ∧
     PyVal.ds 1 ∈ [PyVal.ds 1].filter PyVal.isDataset) :=
  ⟨rfl, List.mem_singleton.mpr rfl, by decide,
   addmetadata_same_object_return identityTransformF (Transformer.mk "T" 0)
     [PyVal.ds 1] [] heap0 1 heap0 rfl (List.mem_singleton.mpr rfl) (by decide)⟩

/-- Concrete subclass `fit` override used for the `fit_predict` claim:
`return self`. -/
def subFitF : PyFunc where
  name := "fit"
  impl := fun self _args _kwargs h => (Except.ok (PyVal.transformer self), h)

/-- Concrete subclass `predict` override used for the `fit_predict`
claim: allocate and return a new Dataset whose metadata starts empty. -/
def subPredictF : PyFunc where
  name := "predict"
  impl := fun _self args _kwargs h =>
    match args with
    | [PyVal.ds _r] =>
        (Except.ok (PyVal.ds h.nextAddr),
         { dictContents := Function.update h.dictContents (h.nextAddr + 1) []
           dsMeta := Function.update h.dsMeta h.nextAddr (h.nextAddr + 1)
           nextAddr := h.nextAddr + 2 })
    | _ => (Except.error (PyExn.other 3), h)

/-- Concrete subclass `transform` override, analogous to `subPredictF`. -/
def subTransformF : PyFunc where
  name := "transform"
  impl := fun _self args _kwargs h =>
    match args with
    | [PyVal.ds _r] =>
        (Except.ok (PyVal.ds h.nextAddr),
         { dictContents := Function.update h.dictContents (h.nextAddr + 1) []
           dsMeta := Function.update h.dsMeta h.nextAddr (h.nextAddr + 1)
           nextAddr := h.nextAddr + 2 })
    | _ => (Except.error (PyExn.other 3), h)

/-- A concrete subclass `Sub` with custom `fit`, `predict` and
`transform`. -/
def SubClass : TransformerClass where
  name := "Sub"
  fit := subFitF
  predict := subPredictF
  transform := subTransformF

/-- C3 counterexample: on the concrete subclass `Sub`, the auto-wrapped
`fit_predict` returns the dataset produced by `predict`, but — because
`fit_predict` is itself provenance-wrapped and its wrapper runs last —
the final `metadata['transformer']` is `"Sub.fit_predict"`, not
`"Sub.predict"` as the claim states. -/
theorem fit_predict_stamp_counterexample :
    (((addmetadata (Transformer.fit_predict SubClass)).impl
        (Transformer.mk "Sub" 0) [PyVal.ds 1] [] heap0).1 =
      Except.ok (PyVal.ds 3)) ∧
    Dict.get
      ((((addmetadata (Transformer.fit_predict SubClass)).impl
           (Transformer.mk "Sub" 0) [PyVal.ds 1] [] heap0).2).dictContents
        ((((addmetadata (Transformer.fit_predict SubClass)).impl
             (Transformer.mk "Sub" 0) [PyVal.ds 1] [] heap0).2).dsMeta 3))
      "transformer" = some (PyVal.str "Sub.fit_predict") ∧
    ("Sub.fit_predict" : String) ≠ "Sub.predict" :=
  ⟨rfl, rfl, by decide⟩

/-- C3 (amended): on a subclass with custom `fit`/`predict` (and
`transform`), the wrapped `fit_predict(ds)` returns exactly the Dataset
that the composition `fit(ds).predict(ds)` (through the same wrapped
bound methods) returns; but since `fit_predict` is itself auto-wrapped
and its wrapper runs last, the final provenance record on that dataset is
stamped by the `fit_predict` wrapper itself: `metadata['transformer']`
is `"<ClassName>.fit_predict"` (overwriting the inner `predict` stamp),
while `previous` is computed from the arguments of the `fit_predict`
call and `params` is `self._params`.  Likewise for `fit_transform` with
`transform`. -/
theorem fit_predict_equiv_composition_last_stamp (cls : TransformerClass)
    (self : Transformer) (d : Nat) (h : Heap) (t : Transformer) (h1 : Heap)
    (r : Nat) (h2 : Heap) (r' : Nat) (h2' : Heap)
    (hfit : cls.fit.impl self [PyVal.ds d] [] h =
      (Except.ok (PyVal.transformer t), h1))
    (hpredict : cls.predict.impl t [PyVal.ds d] [] h1 =
      (Except.ok (PyVal.ds r), h2))
    (htransform : cls.transform.impl t [PyVal.ds d] [] h1 =
      (Except.ok (PyVal.ds r'), h2')) :
    (((addmetadata (Transformer.fit_predict cls)).impl self [PyVal.ds d] [] h).1 =
      Except.ok (PyVal.ds r) ∧
     ((addmetadata cls.predict).impl t [PyVal.ds d] []
        ((addmetadata cls.fit).impl self [PyVal.ds d] [] h).2).1 =
      Except.ok (PyVal.ds r) ∧
     Dict.get
       ((((addmetadata (Transformer.fit_predict cls)).impl self [PyVal.ds d] [] h).2).dictContents
         ((((addmetadata (Transformer.fit_predict cls)).impl self [PyVal.ds d] [] h).2).dsMeta r))
       "transformer" =
       some (PyVal.str (self.className ++ "." ++ "fit_predict")) ∧
     Dict.get
       ((((addmetadata (Transformer.fit_predict cls)).impl self [PyVal.ds d] [] h).2).dictContents
         ((((addmetadata (Transformer.fit_predict cls)).impl self [PyVal.ds d] [] h).2).dsMeta r))
       "params" = some (PyVal.dictRef self._params) ∧
     Dict.get
       ((((addmetadata (Transformer.fit_predict cls)).impl self [PyVal.ds d] [] h).2).dictContents
         ((((addmetadata (Transformer.fit_predict cls)).impl self [PyVal.ds d] [] h).2).dsMeta r))
       "previous" = some (PyVal.list [PyVal.ds d])) ∧
    (((addmetadata (Transformer.fit_transform cls)).impl self [PyVal.ds d] [] h).1 =
      Except.ok (PyVal.ds r') ∧
     ((addmetadata cls.transform).impl t [PyVal.ds d] []
        ((addmetadata cls.fit).impl self [PyVal.ds d] [] h).2).1 =
      Except.ok (PyVal.ds r') ∧
     Dict.get
       ((((addmetadata (Transformer.fit_transform cls)).impl self [PyVal.ds d] [] h).2).dictContents
         ((((addmetadata (Transformer.fit_transform cls)).impl self [PyVal.ds d] [] h).2).dsMeta r'))
       "transformer" =
       some (PyVal.str (self.className ++ "." ++ "fit_transform")) ∧
     Dict.get
       ((((addmetadata (Transformer.fit_transform cls)).impl self [PyVal.ds d] [] h).2).dictContents
         ((((addmetadata (Transformer.fit_transform cls)).impl self [PyVal.ds d] [] h).2).dsMeta r'))
       "params" = some (PyVal.dictRef self._params) ∧
     Dict.get
       ((((addmetadata (Transformer.fit_transform cls)).impl self [PyVal.ds d] [] h).2).dictContents
         ((((addmetadata (Transformer.fit_transform cls)).impl self [PyVal.ds d] [] h).2).dsMeta r'))
       "previous" = some (PyVal.list [PyVal.ds d])) := by
  have hfitW : (addmetadata cls.fit).impl self [PyVal.ds d] [] h =
      (Except.ok (PyVal.transformer t), h1) :=
    addmetadata_run_passthrough cls.fit self [PyVal.ds d] [] h _ h1 hfit
      (fun r hc => by simp at hc)
  have hbodyP : (Transformer.fit_predict cls).impl self [PyVal.ds d] [] h =
      (addmetadata cls.predict).impl t [PyVal.ds d] [] h1 := by
    simp only [Transformer.fit_predict, hfitW]
  have hbodyT : (Transformer.fit_transform cls).impl self [PyVal.ds d] [] h =
      (addmetadata cls.transform).impl t [PyVal.ds d] [] h1 := by
    simp only [Transformer.fit_transform, hfitW]
  have hpredW := addmetadata_run_ds cls.predict t [PyVal.ds d] [] h1 r h2 hpredict
  have htransW := addmetadata_run_ds cls.transform t [PyVal.ds d] [] h1 r' h2' htransform
  have hrawP := hbodyP.trans hpredW
  have hrawT := hbodyT.trans htransW
  constructor
  · rw [addmetadata_run_ds (Transformer.fit_predict cls) self [PyVal.ds d] [] h r _ hrawP]
    refine ⟨rfl, ?_, ?_, ?_, ?_⟩
    · rw [hfitW]
      dsimp only
      rw [hpredW]
    · dsimp only
      rw [fresh_stamped_read, stampDict_get_transformer]
      rfl
    · dsimp only
      rw [fresh_stamped_read, stampDict_get_params]
    · dsimp only
      rw [fresh_stamped_read, stampDict_get_previous]
      rfl
  · rw [addmetadata_run_ds (Transformer.fit_transform cls) self [PyVal.ds d] [] h r' _ hrawT]
    refine ⟨rfl, ?_, ?_, ?_, ?_⟩
    · rw [hfitW]
      dsimp only
      rw [htransW]
    · dsimp only
      rw [fresh_stamped_read, stampDict_get_transformer]
      rfl
    · dsimp only
      rw [fresh_stamped_read, stampDict_get_params]
    · dsimp only
      rw [fresh_stamped_read, stampDict_get_previous]
      rfl

/-- The heap after `subPredictF`/`subTransformF` runs on `heap0`: a new
Dataset at address 3 with a fresh empty metadata dict at address 4. -/
def heapAfterAlloc : Heap where
  dictContents := Function.update heap0.dictContents 4 []
  dsMeta := Function.update heap0.dsMeta 3 4
  nextAddr := 5

theorem fit_predict_equiv_composition_last_stamp_witness :
    SubClass.fit.impl (Transformer.mk "Sub" 0) [PyVal.ds 1] [] heap0 =
      (Except.ok (PyVal.transformer (Transformer.mk "Sub" 0)), heap0) ∧
    SubClass.predict.impl (Transformer.mk "Sub" 0) [PyVal.ds 1] [] heap0 =
      (Except.ok (PyVal.ds 3), heapAfterAlloc) ∧
    SubClass.transform.impl (Transformer.mk "Sub" 0) [PyVal.ds 1] [] heap0 =
      (Except.ok (PyVal.ds 3), heapAfterAlloc) ∧
    ((((addmetadata (Transformer.fit_predict SubClass)).impl (Transformer.mk "Sub" 0) [PyVal.ds 1] [] heap0).1 =
        Except.ok (PyVal.ds 3) ∧
      ((addmetadata SubClass.predict).impl (Transformer.mk "Sub" 0) [PyVal.ds 1] []
         ((addmetadata SubClass.fit).impl (Transformer.mk "Sub" 0) [PyVal.ds 1] [] heap0).2).1 =
        Except.ok (PyVal.ds 3) ∧
      Dict.get
        ((((addmetadata (Transformer.fit_predict SubClass)).impl (Transformer.mk "Sub" 0) [PyVal.ds 1] [] heap0).2).dictContents
          ((((addmetadata (Transformer.fit_predict SubClass)).impl (Transformer.mk "Sub" 0) [PyVal.ds 1] [] heap0).2).dsMeta 3))
        "transformer" =
        some (PyVal.str ((Transformer.mk "Sub" 0).className ++ "." ++ "fit_predict")) ∧
      Dict.get
        ((((addmetadata (Transformer.fit_predict SubClass)).impl (Transformer.mk "Sub" 0) [PyVal.ds 1] [] heap0).2).dictContents
          ((((addmetadata (Transformer.fit_predict SubClass)).impl (Transformer.mk "Sub" 0) [PyVal.ds 1] [] heap0).2).dsMeta 3))
        "params" = some (PyVal.dictRef (Transformer.mk "Sub" 0)._params) ∧
      Dict.get
        ((((addmetadata (Transformer.fit_predict SubClass)).impl (Transformer.mk "Sub" 0) [PyVal.ds 1] [] heap0).2).dictContents
          ((((addmetadata (Transformer.fit_predict SubClass)).impl (Transformer.mk "Sub" 0) [PyVal.ds 1] [] heap0).2).dsMeta 3))
        "previous" = some (PyVal.list [PyVal.ds 1])) ∧
     (((addmetadata (Transformer.fit_transform SubClass)).impl (Transformer.mk "Sub" 0) [PyVal.ds 1] [] heap0).1 =
        Except.ok (PyVal.ds 3) ∧
      ((addmetadata SubClass.transform).impl (Transformer.mk "Sub" 0) [PyVal.ds 1] []
         ((addmetadata SubClass.fit).impl (Transformer.mk "Sub" 0) [PyVal.ds 1] [] heap0).2).1 =
        Except.ok (PyVal.ds 3) ∧
      Dict.get
        ((((addmetadata (Transformer.fit_transform SubClass)).impl (Transformer.mk "Sub" 0) [PyVal.ds 1] [] heap0).2).dictContents
          ((((addmetadata (Transformer.fit_transform SubClass)).impl (Transformer.mk "Sub" 0) [PyVal.ds 1] [] heap0).2).dsMeta 3))
        "transformer" =
        some (PyVal.str ((Transformer.mk "Sub" 0).className ++ "." ++ "fit_transform")) ∧
      Dict.get
        ((((addmetadata (Transformer.fit_transform SubClass)).impl (Transformer.mk "Sub" 0) [PyVal.ds 1] [] heap0).2).dictContents
          ((((addmetadata (Transformer.fit_transform SubClass)).impl (Transformer.mk "Sub" 0) [PyVal.ds 1] [] heap0).2).dsMeta 3))
        "params" = some (PyVal.dictRef (Transformer.mk "Sub" 0)._params) ∧
      Dict.get
        ((((addmetadata (Transformer.fit_transform SubClass)).impl (Transformer.mk "Sub" 0) [PyVal.ds 1] [] heap0).2).dictContents
          ((((addmetadata (Transformer.fit_transform SubClass)).impl (Transformer.mk "Sub" 0) [PyVal.ds 1] [] heap0).2).dsMeta 3))
        "previous" = some (PyVal.list [PyVal.ds 1]))) :=
  ⟨rfl, rfl, rfl,
   fit_predict_equiv_composition_last_stamp SubClass (Transformer.mk "Sub" 0) 1
     heap0 (Transformer.mk "Sub" 0) heap0 3 heapAfterAlloc 3 heapAfterAlloc
     rfl rfl rfl⟩
